import Mathlib

/-!
Shallow embedding of the market-monitor program (`all_with_news.py`) and
verification of its specification claims.

Python built-ins are modelled as follows: dictionaries keyed by strings become
association lists (`List (String × String)`), absent fields become `Option`,
exceptions become `Except`, and the external collaborators (HTTP fetches, the
translation backend, the per-process string hash, time formatting) become
function parameters.  Side effects relevant to the claims (translation-backend
invocations and cache persistence) are recorded in explicit effect traces.
-/

set_option maxHeartbeats 1000000

/-! ## News content cleaning (`clean_news_content`)

`re.sub(r'<[^>]+>', '', content)` removes every maximal `<...>` segment with a
non-empty body; `re.sub(r'\s+', ' ', ...)` collapses whitespace runs to a
single space; `.strip()` trims the ends. -/

def stripTagsF : Nat → List Char → List Char
  | 0, l => l
  | _ + 1, [] => []
  | fuel + 1, '<' :: rest =>
    match rest.findIdx? (· = '>') with
    | some 0 => '<' :: stripTagsF fuel rest
    | some (n + 1) => stripTagsF fuel (rest.drop (n + 2))
    | none => '<' :: stripTagsF fuel rest
  | fuel + 1, c :: rest => c :: stripTagsF fuel rest

/-- Every recursive step of `stripTagsF` shortens the list by at least one
character, so `length` fuel always suffices and the fuel-out case is dead. -/
def stripTags (l : List Char) : List Char :=
  stripTagsF l.length l

def collapseWsAux : Bool → List Char → List Char
  | _, [] => []
  | prevWs, c :: rest =>
    if c.isWhitespace then
      if prevWs then collapseWsAux true rest
      else ' ' :: collapseWsAux true rest
    else c :: collapseWsAux false rest

/-- Python `str.strip()`: drop whitespace from both ends. -/
def pyStrip (s : String) : String :=
  String.mk (((s.data.dropWhile Char.isWhitespace).reverse.dropWhile Char.isWhitespace).reverse)

/-- Python character slicing `s[:n]`. -/
def pySlice (s : String) (n : Nat) : String :=
  String.mk (s.data.take n)

def clean_news_content (content : String) : String :=
  pyStrip (String.mk (collapseWsAux false (stripTags content.data)))

/-! ## Translation cache (`translate_news_text_cached`)

The cache is a Python dict `key → text`; the translator is the external
backend (`translator.translate(...)`, fallible).  Each call records the
observable side effects: `.call t` for an invocation of the backend on text
`t`, `.save c` for a `save_translation_cache(c)` whole-file write. -/

abbrev TransCache := List (String × String)

inductive TransEffect where
  | call (text : String)
  | save (cache : TransCache)
deriving DecidableEq, Repr

def isCallEffect : TransEffect → Bool
  | .call _ => true
  | .save _ => false

def isSaveEffect : TransEffect → Bool
  | .call _ => false
  | .save _ => true

def callsIn (l : List TransEffect) : Nat := (l.filter isCallEffect).length

def savesIn (l : List TransEffect) : Nat := (l.filter isSaveEffect).length

/-- Python dict assignment `cache[k] = v`. -/
def cacheInsert (c : TransCache) (k v : String) : TransCache :=
  if (c.lookup k).isSome then c.map (fun p => if p.1 = k then (k, v) else p)
  else c ++ [(k, v)]

/-- `translate_news_text_cached(text, translator, cache, news_key)`:
on a hit return the stored value; on a miss return whitespace-only text
unchanged, otherwise invoke the backend and store its result (or, on backend
failure, the literal error string).  No persistence happens here. -/
def translate_news_text_cached (text : String)
    (translator : String → Except String String)
    (cache : TransCache) (news_key : String) :
    String × TransCache × List TransEffect :=
  match cache.lookup news_key with
  | some v => (v, cache, [])
  | none =>
    if (pyStrip text).length = 0 then (text, cache, [])
    else
      match translator text with
      | .ok t => (t, cacheInsert cache news_key t, [.call text])
      | .error e =>
        let error_msg := "翻译失败: " ++ e
        (error_msg, cacheInsert cache news_key error_msg, [.call text])

/-! ## News keys (`get_news_key`)

CPython's built-in `hash` on strings is salted per process (`PYTHONHASHSEED`),
so we model it as a parameter: each process run supplies its own
`pyhash : String → Int`. -/

structure RawItem where
  time : String
  important : Nat
  content : String
deriving DecidableEq, Repr

/-- `get_news_key(item)`: `f"{time_str}_{hash(content_preview)}"` where
`content_preview` is the first 50 characters of the cleaned content. -/
def get_news_key (pyhash : String → Int) (item : RawItem) : String :=
  let time_str := item.time
  let content := item.content
  let content_preview := pySlice (clean_news_content content) 50
  time_str ++ "_" ++ toString (pyhash content_preview)

/-! ## News fetch pipeline (`fetch_latest_news`)

Time formatting (`format_news_time`, timezone conversion) is an external
collaborator and is passed in as `fmtTime`.  A failed or malformed news fetch
(`fetch_news_data` returning `None`/non-list) is the `none` case. -/

structure NewsEntry where
  time : String
  importance : String
  content : String
deriving DecidableEq, Repr

/-- One iteration of the item loop in `fetch_latest_news` (lines 309-348). -/
def processNewsItem (pyhash : String → Int)
    (translator : String → Except String String) (fmtTime : String → String)
    (item : RawItem) (cache : TransCache) :
    NewsEntry × TransCache × List TransEffect :=
  let news_key := get_news_key pyhash item
  let formatted_time := fmtTime item.time
  let importance_mark := if item.important = 1 then "🔥" else "📰"
  let clean_content_text := clean_news_content item.content
  if clean_content_text.length ≠ 0 then
    let clipped :=
      if clean_content_text.length > 200 then pySlice clean_content_text 200 ++ "..."
      else clean_content_text
    let r := translate_news_text_cached clipped translator cache news_key
    let translated_content :=
      if r.1.length > 100 then pySlice r.1 100 ++ "..." else r.1
    (⟨formatted_time, importance_mark, translated_content⟩, r.2.1, r.2.2)
  else
    (⟨formatted_time, importance_mark, "无内容"⟩, cache, [])

def processNewsItems (pyhash : String → Int)
    (translator : String → Except String String) (fmtTime : String → String) :
    List RawItem → TransCache → List NewsEntry × TransCache × List TransEffect
  | [], cache => ([], cache, [])
  | item :: rest, cache =>
    let r := processNewsItem pyhash translator fmtTime item cache
    let rs := processNewsItems pyhash translator fmtTime rest r.2.1
    (r.1 :: rs.1, rs.2.1, r.2.2 ++ rs.2.2)

/-- `fetch_latest_news(count)`: on fetch failure return `[]`; otherwise sort
the items by time descending (stable), take `count`, translate each through
the cache, and finally persist the whole updated cache once
(`save_translation_cache(cache)`). -/
def fetch_latest_news_model (pyhash : String → Int)
    (translator : String → Except String String) (fmtTime : String → String)
    (newsData : Option (List RawItem)) (count : Nat) (cache : TransCache) :
    List NewsEntry × TransCache × List TransEffect :=
  match newsData with
  | none => ([], cache, [])
  | some data =>
    let sorted_news := (data.mergeSort (fun a b => decide (b.time ≤ a.time))).take count
    let r := processNewsItems pyhash translator fmtTime sorted_news cache
    (r.1, r.2.1, r.2.2 ++ [.save r.2.1])

/-! ## Crypto quotes (`fetch_prices_from_gate`)

One HTTP request per symbol; the whole loop sits inside a single
`try/except`, so the first failing symbol abandons the rest of the loop,
keeping only the prices accumulated so far. -/

def gateSymbols : List String := ["BTC_USDT", "ETH_USDT", "BNB_USDT"]

/-- Python `symbol.replace("_", "")`. -/
def symClean (s : String) : String :=
  String.mk (s.data.filter (· ≠ '_'))

def gateLoop (api : String → Except String Int) : List String → List (String × Int)
  | [] => []
  | symbol :: rest =>
    match api symbol with
    | .ok last => (symClean symbol, last) :: gateLoop api rest
    | .error _ => []

def fetch_prices_from_gate (api : String → Except String Int) : List (String × Int) :=
  gateLoop api gateSymbols

/-! ## Session-aware price resolution (`fetch_all_stocks`, lines 139-182)

A quote record is the per-ticker dict `q`; values are left polymorphic since
the resolver only moves them around (it performs no arithmetic on them). -/

def field_pairs : List (String × String) :=
  [("preMarketPrice", "preMarketChangePercent"),
   ("regularMarketPrice", "regularMarketChangePercent"),
   ("postMarketPrice", "postMarketChangePercent"),
   ("overnightMarketPrice", "overnightMarketChangePercent")]

/-- The phase-specific fallback chain chosen in lines 156-168. -/
def fallback_order (active_price_key : String) : List String :=
  if active_price_key = "preMarketPrice" then
    ["overnightMarketPrice", "regularMarketPrice", "postMarketPrice"]
  else if active_price_key = "regularMarketPrice" then
    ["preMarketPrice", "postMarketPrice", "overnightMarketPrice"]
  else if active_price_key = "postMarketPrice" then
    ["regularMarketPrice", "preMarketPrice", "overnightMarketPrice"]
  else
    ["postMarketPrice", "regularMarketPrice", "preMarketPrice"]

/-- The paired percent field found by the inner `field_pairs` scan. -/
def percent_field (pf : String) : String :=
  match field_pairs.find? (fun pair => pair.1 = pf) with
  | some pair => pair.2
  | none => ""

/-- The fallback walk (lines 170-182): take the first present price field and
read its paired percent field verbatim; if the scan over `field_pairs` found
no pair, the active change value is kept. -/
def resolveFallbackWalk {α : Type} (q : String → Option α) (active_change : Option α) :
    List String → Option α × Option α
  | [] => (none, active_change)
  | pf :: rest =>
    match q pf with
    | some p =>
      match field_pairs.find? (fun pair => pair.1 = pf) with
      | some pair => (some p, q pair.2)
      | none => (some p, active_change)
    | none => resolveFallbackWalk q active_change rest

/-- Lines 150-182: prefer the active field pair; if the active price is
absent, walk the phase-specific fallback chain. -/
def resolve_price_change {α : Type} (q : String → Option α)
    (active_price_key active_change_key : String) : Option α × Option α :=
  let active_price := q active_price_key
  let active_change := q active_change_key
  match active_price with
  | some p => (some p, active_change)
  | none => resolveFallbackWalk q active_change (fallback_order active_price_key)

/-- Session phases, with the field pair chosen by `detect_session`. -/
inductive Phase where
  | preMarket
  | regular
  | afterHours
  | overnight
deriving DecidableEq, Repr

def active_keys : Phase → String × String
  | .preMarket => ("preMarketPrice", "preMarketChangePercent")
  | .regular => ("regularMarketPrice", "regularMarketChangePercent")
  | .afterHours => ("postMarketPrice", "postMarketChangePercent")
  | .overnight => ("overnightMarketPrice", "overnightMarketChangePercent")

/-! ## The tick loop (`main`, lines 367-521)

One iteration of the `while not stop_flag` loop, with the external fetches as
parameters: `stockFetch` is the outcome of `fetch_all_stocks` (which has no
exception handler, so a quote-source error is an `Except.error` that
propagates), and `newsFetch count` is the list `fetch_latest_news(count)`
returns (already `[]` on a news-source failure).  Crypto prices are fetched
unconditionally at the top of every iteration.  The trailing 60×1s idle wait
resets `show_more_news` at second 30 unless a manual refresh is pending. -/

structure StockRow where
  lastClose : String
  ticker : String
  priority : Nat
  price : String
  change : String
deriving DecidableEq, Repr

structure MainState where
  manual_refresh_flag : Bool
  show_more_news : Bool
  last_stock_update : Nat
  last_news_update : Nat
  stock_df : List StockRow
  news_list : List NewsEntry
deriving DecidableEq, Repr

structure TickResult where
  state : MainState
  cryptoFetched : Bool
  stockFetched : Bool
  newsFetched : Bool
  newsCountUsed : Option Nat
deriving DecidableEq, Repr

/-- `now - last_stock_update > 300 or stock_df.empty or force_refresh`. -/
def stock_due (now : Nat) (s : MainState) (force_refresh : Bool) : Bool :=
  decide (300 < now - s.last_stock_update) || s.stock_df.isEmpty || force_refresh

/-- `now - last_news_update > 300 or not news_list or force_refresh`. -/
def news_due (now : Nat) (s : MainState) (force_refresh : Bool) : Bool :=
  decide (300 < now - s.last_news_update) || s.news_list.isEmpty || force_refresh

def mainTick (now : Nat) (stockFetch : Except String (List StockRow))
    (newsFetch : Nat → List NewsEntry) (s : MainState) :
    Except String TickResult :=
  let force_refresh := s.manual_refresh_flag
  let s1 : MainState := { s with manual_refresh_flag := false }
  let step2 : Except String (MainState × Bool) :=
    if stock_due now s1 force_refresh then
      match stockFetch with
      | .error e => .error e
      | .ok df => .ok ({ s1 with stock_df := df, last_stock_update := now }, true)
    else .ok (s1, false)
  match step2 with
  | .error e => .error e
  | .ok (s2, stockFetched) =>
    let r3 : MainState × Bool × Option Nat :=
      if news_due now s2 force_refresh then
        let news_count := if s2.show_more_news then 10 else 5
        ({ s2 with news_list := newsFetch news_count, last_news_update := now },
         true, some news_count)
      else (s2, false, none)
    let s4 : MainState :=
      if r3.1.show_more_news && !r3.1.manual_refresh_flag then
        { r3.1 with show_more_news := false }
      else r3.1
    .ok ⟨s4, true, stockFetched, r3.2.1, r3.2.2⟩

deriving instance DecidableEq for Except

/-! ## Helper lemmas -/

theorem lookup_append_single {c : TransCache} {k : String}
    (h : c.lookup k = none) (v : String) : (c ++ [(k, v)]).lookup k = some v := by
  induction c with
  | nil => simp [List.lookup]
  | cons hd tl ih =>
    obtain ⟨a, b⟩ := hd
    rw [List.lookup] at h
    rw [List.cons_append, List.lookup]
    cases hb : k == a with
    | true =>
      rw [hb] at h
      exact absurd h (by simp)
    | false =>
      rw [hb] at h
      exact ih h

theorem lookup_cacheInsert {c : TransCache} {k : String}
    (h : c.lookup k = none) (v : String) : (cacheInsert c k v).lookup k = some v := by
  unfold cacheInsert
  rw [h]
  simp only [Option.isSome_none, Bool.false_eq_true, if_false]
  exact lookup_append_single h v

theorem translate_hit {text news_key : String}
    {translator : String → Except String String} {cache : TransCache} {v : String}
    (h : cache.lookup news_key = some v) :
    translate_news_text_cached text translator cache news_key = (v, cache, []) := by
  unfold translate_news_text_cached
  rw [h]

theorem translate_no_save (text : String) (translator : String → Except String String)
    (cache : TransCache) (k : String) :
    (translate_news_text_cached text translator cache k).2.2.filter isSaveEffect = [] := by
  unfold translate_news_text_cached
  split
  · simp
  · split
    · simp
    · split <;> simp [isSaveEffect]

theorem processNewsItem_no_save (pyhash : String → Int)
    (translator : String → Except String String) (fmtTime : String → String)
    (item : RawItem) (cache : TransCache) :
    (processNewsItem pyhash translator fmtTime item cache).2.2.filter isSaveEffect = [] := by
  unfold processNewsItem
  dsimp only
  by_cases h : (clean_news_content item.content).length ≠ 0
  · rw [if_pos h]
    exact translate_no_save _ _ _ _
  · rw [if_neg h]
    rfl

theorem processNewsItems_no_save (pyhash : String → Int)
    (translator : String → Except String String) (fmtTime : String → String) :
    ∀ (items : List RawItem) (cache : TransCache),
      (processNewsItems pyhash translator fmtTime items cache).2.2.filter isSaveEffect = [] := by
  intro items
  induction items with
  | nil => intro cache; simp [processNewsItems]
  | cons item rest ih =>
    intro cache
    simp [processNewsItems, List.filter_append, processNewsItem_no_save, ih]

/-! ## Claim C1 -/

def newsItemA : RawItem := ⟨"2024-01-01T00:00:00Z", 0, "Fed holds rates steady"⟩

/-- C1: the claim says cache keys derived by `get_news_key` are identical in
every process run.  But the key embeds CPython's built-in string hash, which
is salted per process: two runs (modelled as two hash functions for the
content preview) give the same news item different keys, so an entry written
by one run is not found by the next. -/
theorem get_news_key_differs_across_runs :
    get_news_key (fun _ => 0) newsItemA ≠ get_news_key (fun _ => 1) newsItemA := by
  decide

/-! ## Claim C2 -/

/-- C2 counterexample: for whitespace-only text, a get-or-compute miss stores
nothing — after the first call on key `"k"` with an empty cache, the cache
still has no entry for `"k"`, contradicting "the first call on a miss stores
f's result under k". -/
theorem get_or_compute_miss_stores_nothing :
    (translate_news_text_cached " " (fun _ => Except.ok "X") [] "k").2.1.lookup "k" = none
    ∧ (translate_news_text_cached " " (fun _ => Except.ok "X") [] "k").1 = " "
    ∧ callsIn (translate_news_text_cached " " (fun _ => Except.ok "X") [] "k").2.2 = 0 := by
  decide

/-- C2 (amended): for text that is not whitespace-only, a get-or-compute miss
stores the computed text under the key, the second call with the same key
returns the identical stored text with no translator invocation, and the
translator is invoked exactly once across the two calls.  (For whitespace-only
text the translator is never invoked and nothing is stored.) -/
theorem get_or_compute_twice (translator : String → Except String String)
    (text news_key : String) (cache : TransCache)
    (hmiss : cache.lookup news_key = none)
    (hne : (pyStrip text).length ≠ 0) :
    (translate_news_text_cached text translator cache news_key).2.1.lookup news_key
      = some (translate_news_text_cached text translator cache news_key).1
    ∧ translate_news_text_cached text translator
        (translate_news_text_cached text translator cache news_key).2.1 news_key
      = ((translate_news_text_cached text translator cache news_key).1,
         (translate_news_text_cached text translator cache news_key).2.1, [])
    ∧ callsIn (translate_news_text_cached text translator cache news_key).2.2 = 1 := by
  have hbody : translate_news_text_cached text translator cache news_key
      = match translator text with
        | .ok t => (t, cacheInsert cache news_key t, [.call text])
        | .error e =>
          ("翻译失败: " ++ e, cacheInsert cache news_key ("翻译失败: " ++ e), [.call text]) := by
    unfold translate_news_text_cached
    rw [hmiss, if_neg hne]
  rcases htr : translator text with e | t <;>
    rw [htr] at hbody <;>
    rw [hbody] <;>
    refine ⟨lookup_cacheInsert hmiss _, translate_hit (lookup_cacheInsert hmiss _), by
      simp [callsIn, isCallEffect]⟩

/-- C2 witness: a concrete run of the amended theorem. -/
theorem get_or_compute_twice_witness :
    (translate_news_text_cached "hi" (fun _ => Except.ok "你好") [] "k").2.1.lookup "k"
      = some (translate_news_text_cached "hi" (fun _ => Except.ok "你好") [] "k").1
    ∧ translate_news_text_cached "hi" (fun _ => Except.ok "你好")
        (translate_news_text_cached "hi" (fun _ => Except.ok "你好") [] "k").2.1 "k"
      = ((translate_news_text_cached "hi" (fun _ => Except.ok "你好") [] "k").1,
         (translate_news_text_cached "hi" (fun _ => Except.ok "你好") [] "k").2.1, [])
    ∧ callsIn (translate_news_text_cached "hi" (fun _ => Except.ok "你好") [] "k").2.2 = 1 :=
  get_or_compute_twice (fun _ => Except.ok "你好") "hi" "k" [] (by decide) (by decide)

/-! ## Claim C10 -/

/-- C10: for whitespace-only text whose key is not cached, the cached
translation returns the text unchanged, invokes no translation backend
(empty effect trace) and creates no cache entry. -/
theorem empty_text_uncached (translator : String → Except String String)
    (text news_key : String) (cache : TransCache)
    (hmiss : cache.lookup news_key = none)
    (hempty : (pyStrip text).length = 0) :
    translate_news_text_cached text translator cache news_key = (text, cache, []) := by
  unfold translate_news_text_cached
  rw [hmiss, if_pos hempty]

/-- C10 witness: a concrete whitespace-only text on a concrete empty cache. -/
theorem empty_text_uncached_witness :
    translate_news_text_cached "  " (fun t => Except.ok t) [] "k0" = ("  ", [], []) :=
  empty_text_uncached (fun t => Except.ok t) "  " "k0" [] (by decide) (by decide)

/-! ## Claim C8 -/

/-- C8 counterexample: a get-or-compute miss mutates the cache (one entry is
added) yet performs zero persistence writes before returning — the backing
store is only written later, once per news fetch. -/
theorem miss_mutation_not_persisted :
    (translate_news_text_cached "hello" (fun t => Except.ok ("ZH" ++ t)) [] "k").2.1
      = [("k", "ZHhello")]
    ∧ savesIn (translate_news_text_cached "hello" (fun t => Except.ok ("ZH" ++ t)) [] "k").2.2
      = 0 := by
  decide

/-- C8 (amended): the cache is persisted exactly once per news fetch — a
single whole-file write of the final cache, emitted after all items of the
fetch have been processed (it is the last effect of the fetch).  Abrupt
termination mid-fetch can therefore lose every mutation of the in-flight
batch, not just one. -/
theorem cache_persisted_once_per_fetch (pyhash : String → Int)
    (translator : String → Except String String) (fmtTime : String → String)
    (data : List RawItem) (count : Nat) (cache : TransCache) :
    (fetch_latest_news_model pyhash translator fmtTime (some data) count cache).2.2.filter
        isSaveEffect
      = [TransEffect.save (fetch_latest_news_model pyhash translator fmtTime
          (some data) count cache).2.1]
    ∧ (fetch_latest_news_model pyhash translator fmtTime (some data) count cache).2.2.getLast?
      = some (TransEffect.save (fetch_latest_news_model pyhash translator fmtTime
          (some data) count cache).2.1) := by
  unfold fetch_latest_news_model
  dsimp only
  constructor
  · rw [List.filter_append, processNewsItems_no_save]
    rfl
  · exact List.getLast?_concat _

/-! ## Claim C4 -/

def apiOneFailed : String → Except String Int :=
  fun s => if s = "BTC_USDT" then Except.error "timeout" else Except.ok 10

/-- C4 counterexample: `ETH_USDT`'s own request succeeds, yet its price is
missing from the tick's result because the earlier `BTC_USDT` request failed
and the shared `try` block abandoned the rest of the loop. -/
theorem gate_success_omitted :
    apiOneFailed "ETH_USDT" = Except.ok 10
    ∧ "ETH_USDT" ∈ gateSymbols
    ∧ fetch_prices_from_gate apiOneFailed = [] := by
  decide

/-- C4 (amended): one request per symbol in the fixed order `BTC_USDT`,
`ETH_USDT`, `BNB_USDT`; the first failure abandons the remaining symbols for
that tick, so a symbol's price appears in the result iff its own request and
those of every earlier symbol succeed. -/
theorem gate_prefix_semantics (api : String → Except String Int) (p : Int) :
    (("BTCUSDT", p) ∈ fetch_prices_from_gate api ↔ api "BTC_USDT" = Except.ok p)
    ∧ (("ETHUSDT", p) ∈ fetch_prices_from_gate api ↔
        ((∃ q, api "BTC_USDT" = Except.ok q) ∧ api "ETH_USDT" = Except.ok p))
    ∧ (("BNBUSDT", p) ∈ fetch_prices_from_gate api ↔
        ((∃ q, api "BTC_USDT" = Except.ok q) ∧ (∃ q, api "ETH_USDT" = Except.ok q)
          ∧ api "BNB_USDT" = Except.ok p)) := by
  have e1 : symClean "BTC_USDT" = "BTCUSDT" := by decide
  have e2 : symClean "ETH_USDT" = "ETHUSDT" := by decide
  have e3 : symClean "BNB_USDT" = "BNBUSDT" := by decide
  rcases h1 : api "BTC_USDT" with a1 | v1 <;>
  rcases h2 : api "ETH_USDT" with a2 | v2 <;>
  rcases h3 : api "BNB_USDT" with a3 | v3 <;>
    simp [fetch_prices_from_gate, gateLoop, gateSymbols, h1, h2, h3, e1, e2, e3, eq_comm]

/-! ## Claim C3 -/

def quoteOnlyChange : String → Option Int :=
  fun f => if f = "regularMarketChangePercent" then some 3 else none

/-- C3 counterexample: during the Regular phase, a record with every price
field absent but `regularMarketChangePercent` present makes the resolver emit
an unavailable price together with an available change value — so "unavailable
for both price and change iff the active field and every fallback field are
absent" is false (all price fields are absent here, yet the change is not
unavailable). -/
theorem resolver_both_unavailable_fails :
    quoteOnlyChange "regularMarketPrice" = none
    ∧ (∀ f ∈ fallback_order "regularMarketPrice", quoteOnlyChange f = none)
    ∧ resolve_price_change quoteOnlyChange "regularMarketPrice" "regularMarketChangePercent"
        = (none, some 3) := by
  decide

/-- C3 (amended): for every quote record and phase, the resolver reads the
active price field and pairs it with the active change field; if the active
price is absent it walks exactly the phase-specific fallback chain
(PreMarket: Overnight, Regular, AfterHours; Regular: PreMarket, AfterHours,
Overnight; AfterHours: Regular, PreMarket, Overnight; Overnight: AfterHours,
Regular, PreMarket), takes the first present field with its paired percent
field verbatim; the price is unavailable iff the active field and every
fallback field are absent, and in that case the change is the active change
field verbatim (unavailable only if that too is absent).  Values are
polymorphic, so no percent is ever synthesized from prices. -/
theorem resolver_characterization {α : Type} (q : String → Option α) (ph : Phase) :
    (∀ p, q (active_keys ph).1 = some p →
        resolve_price_change q (active_keys ph).1 (active_keys ph).2
          = (some p, q (active_keys ph).2))
    ∧ (q (active_keys ph).1 = none →
        match (fallback_order (active_keys ph).1).find? (fun f => (q f).isSome) with
        | some f =>
          resolve_price_change q (active_keys ph).1 (active_keys ph).2
            = (q f, q (percent_field f))
        | none =>
          resolve_price_change q (active_keys ph).1 (active_keys ph).2
            = (none, q (active_keys ph).2))
    ∧ ((resolve_price_change q (active_keys ph).1 (active_keys ph).2).1 = none ↔
        (q (active_keys ph).1 = none ∧ ∀ f ∈ fallback_order (active_keys ph).1, q f = none))
    ∧ fallback_order (active_keys Phase.preMarket).1
        = ["overnightMarketPrice", "regularMarketPrice", "postMarketPrice"]
    ∧ fallback_order (active_keys Phase.regular).1
        = ["preMarketPrice", "postMarketPrice", "overnightMarketPrice"]
    ∧ fallback_order (active_keys Phase.afterHours).1
        = ["regularMarketPrice", "preMarketPrice", "overnightMarketPrice"]
    ∧ fallback_order (active_keys Phase.overnight).1
        = ["postMarketPrice", "regularMarketPrice", "preMarketPrice"] := by
  refine ⟨?_, ?_, ?_, by rfl, by rfl, by rfl, by rfl⟩
  · intro p hp
    unfold resolve_price_change
    rw [hp]
  · intro h0
    cases ph <;>
      simp only [active_keys] at h0 ⊢ <;>
      rcases hq1 : q "overnightMarketPrice" with _ | v1 <;>
      rcases hq2 : q "regularMarketPrice" with _ | v2 <;>
      rcases hq3 : q "postMarketPrice" with _ | v3 <;>
      rcases hq4 : q "preMarketPrice" with _ | v4 <;>
      simp [resolve_price_change, resolveFallbackWalk, fallback_order, field_pairs,
        percent_field, List.find?, h0, hq1, hq2, hq3, hq4]
  · cases ph <;>
      simp only [active_keys] <;>
      rcases hq1 : q "overnightMarketPrice" with _ | v1 <;>
      rcases hq2 : q "regularMarketPrice" with _ | v2 <;>
      rcases hq3 : q "postMarketPrice" with _ | v3 <;>
      rcases hq4 : q "preMarketPrice" with _ | v4 <;>
      simp [resolve_price_change, resolveFallbackWalk, fallback_order, field_pairs,
        hq1, hq2, hq3, hq4]

def quotePre : String → Option Int :=
  fun f => if f = "preMarketPrice" then some 7
    else if f = "preMarketChangePercent" then some 2 else none

/-- C3 witness: the amended theorem applied to a concrete PreMarket record. -/
theorem resolver_characterization_witness :
    resolve_price_change quotePre "preMarketPrice" "preMarketChangePercent"
      = (some (7 : Int), some 2) := by
  have h := (resolver_characterization quotePre Phase.preMarket).1 7 (by decide)
  exact h.trans (by decide)

/-! ## The tick loop: sample data and shared lemmas -/

def sampleRow : StockRow := ⟨"  100.00", "  AAPL", 0, "100.00", "+1.00%"⟩

def sampleEntry : NewsEntry := ⟨"01-01 08:00", "📰", "headline"⟩

theorem mainTick_no_manual_flags (now : Nat) (df : List StockRow)
    (nf : Nat → List NewsEntry) (s : MainState) (hm : s.manual_refresh_flag = false) :
    ∃ r, mainTick now (.ok df) nf s = .ok r
      ∧ r.state.manual_refresh_flag = false
      ∧ r.stockFetched = stock_due now s false
      ∧ r.newsFetched = news_due now s false
      ∧ (r.newsFetched = true →
          r.newsCountUsed = some (if s.show_more_news = true then 10 else 5)) := by
  unfold mainTick
  dsimp only
  rw [hm]
  simp only [stock_due, news_due, Bool.or_false]
  cases hsd : decide (300 < now - s.last_stock_update) || s.stock_df.isEmpty <;>
    simp only [hsd, if_true, if_false, Bool.false_eq_true, Bool.true_eq_false] <;>
    cases hnd : decide (300 < now - s.last_news_update) || s.news_list.isEmpty <;>
      simp only [hnd, if_true, if_false, Bool.false_eq_true, Bool.true_eq_false] <;>
      cases hshow : s.show_more_news <;>
        simp [hshow]

theorem mainTick_ok_news (now : Nat) (df : List StockRow) (nf : Nat → List NewsEntry)
    (s : MainState) :
    ∃ r, mainTick now (.ok df) nf s = .ok r
      ∧ (r.newsFetched = true →
          r.state.news_list = nf (if s.show_more_news = true then 10 else 5)) := by
  cases hman : s.manual_refresh_flag
  case true =>
    unfold mainTick
    dsimp only
    rw [hman]
    simp only [stock_due, news_due, Bool.or_true, if_true]
    cases hshow : s.show_more_news <;> simp [hshow]
  case false =>
    unfold mainTick
    dsimp only
    rw [hman]
    simp only [stock_due, news_due, Bool.or_false]
    cases hsd : decide (300 < now - s.last_stock_update) || s.stock_df.isEmpty <;>
      simp only [hsd, if_true, if_false, Bool.false_eq_true, Bool.true_eq_false] <;>
      cases hnd : decide (300 < now - s.last_news_update) || s.news_list.isEmpty <;>
        simp only [hnd, if_true, if_false, Bool.false_eq_true, Bool.true_eq_false] <;>
        cases hshow : s.show_more_news <;>
          simp [hshow]

/-! ## Claim C5 -/

/-- C5 counterexample: with a previous equities snapshot in place and the
equities class due, a transport error from the quote source is not caught at
any fetch boundary — it propagates out of the tick (the loop terminates with
the error), instead of retaining the previous snapshot and continuing. -/
theorem equities_error_terminates_loop :
    mainTick 1000 (Except.error "HTTPError") (fun _ => [sampleEntry])
        ⟨false, false, 0, 0, [sampleRow], [sampleEntry]⟩
      = Except.error "HTTPError"
    ∧ ([sampleRow] : List StockRow) ≠ [] :=
  ⟨rfl, by decide⟩

/-- C5 (amended): crypto and news transport/payload errors are absorbed
before the tick loop (a failed news fetch yields `[]`), and a tick whose
equities fetch succeeds always completes; but a failed news fetch replaces
the previous news snapshot with the fetched (empty) list rather than
retaining it, and an equities fetch error is not caught — when the equities
class is due it propagates out of the tick loop and terminates it. -/
theorem fetch_boundary_amended (now : Nat) (df : List StockRow)
    (nf : Nat → List NewsEntry) (s : MainState) (e : String) :
    (∃ r, mainTick now (.ok df) nf s = .ok r
       ∧ (r.newsFetched = true →
            r.state.news_list = nf (if s.show_more_news = true then 10 else 5)))
    ∧ (stock_due now s s.manual_refresh_flag = true →
        mainTick now (.error e) nf s = .error e) := by
  constructor
  · exact mainTick_ok_news now df nf s
  · intro hdue
    unfold mainTick
    dsimp only
    simp only [stock_due] at hdue ⊢
    simp [hdue]

/-- C5 witness: the amended theorem applied at a concrete due state with a
concrete transport error. -/
theorem fetch_boundary_amended_witness :
    mainTick 1000 (Except.error "boom") (fun _ => [])
        ⟨false, false, 0, 0, [sampleRow], [sampleEntry]⟩
      = Except.error "boom" :=
  (fetch_boundary_amended 1000 [] (fun _ => [])
    ⟨false, false, 0, 0, [sampleRow], [sampleEntry]⟩ "boom").2 (by decide)

/-! ## Claim C6 -/

/-- C6: if the manual-refresh flag is set at the start of a tick, all three
data classes are fetched on that tick regardless of elapsed time, and the
flag is cleared while consuming the tick; on the immediately following tick
(no new manual trigger) the flag is false and each class's dueness is exactly
the manual-free condition — no class is due solely because of the earlier
manual refresh. -/
theorem manual_refresh_consumed (now now2 : Nat) (df df2 : List StockRow)
    (nf nf2 : Nat → List NewsEntry) (s : MainState)
    (h : s.manual_refresh_flag = true) :
    ∃ r r2, mainTick now (.ok df) nf s = .ok r
      ∧ r.cryptoFetched = true ∧ r.stockFetched = true ∧ r.newsFetched = true
      ∧ r.state.manual_refresh_flag = false
      ∧ mainTick now2 (.ok df2) nf2 r.state = .ok r2
      ∧ r2.state.manual_refresh_flag = false
      ∧ r2.stockFetched = stock_due now2 r.state false
      ∧ r2.newsFetched = news_due now2 r.state false := by
  have hfirst : ∃ r, mainTick now (.ok df) nf s = .ok r
      ∧ r.cryptoFetched = true ∧ r.stockFetched = true ∧ r.newsFetched = true
      ∧ r.state.manual_refresh_flag = false := by
    unfold mainTick
    dsimp only
    rw [h]
    simp only [stock_due, news_due, Bool.or_true, if_true]
    cases hshow : s.show_more_news <;> simp [hshow]
  obtain ⟨r, hr, hc, hsf, hnf, hm⟩ := hfirst
  obtain ⟨r2, hr2, hm2, hs2, hn2, _⟩ := mainTick_no_manual_flags now2 df2 nf2 r.state hm
  exact ⟨r, r2, hr, hc, hsf, hnf, hm, hr2, hm2, hs2, hn2⟩

/-- C6 witness: a concrete manual-refresh tick followed by a plain tick. -/
theorem manual_refresh_consumed_witness :
    ∃ r r2, mainTick 100 (Except.ok [sampleRow]) (fun _ => [sampleEntry])
          ⟨true, false, 0, 0, [sampleRow], [sampleEntry]⟩ = .ok r
      ∧ r.cryptoFetched = true ∧ r.stockFetched = true ∧ r.newsFetched = true
      ∧ r.state.manual_refresh_flag = false
      ∧ mainTick 160 (Except.ok [sampleRow]) (fun _ => [sampleEntry]) r.state = .ok r2
      ∧ r2.state.manual_refresh_flag = false
      ∧ r2.stockFetched = stock_due 160 r.state false
      ∧ r2.newsFetched = news_due 160 r.state false :=
  manual_refresh_consumed 100 160 [sampleRow] [sampleRow] (fun _ => [sampleEntry])
    (fun _ => [sampleEntry]) ⟨true, false, 0, 0, [sampleRow], [sampleEntry]⟩ rfl

/-! ## Claim C7 -/

/-- C7 counterexample: elapsed time exactly equal to the 300-second cadence
(claimed "at least" suffices) does not trigger a refetch for either equities
or news — the code's comparison is strictly greater-than. -/
theorem cadence_boundary_not_refetched :
    mainTick 300 (Except.ok [sampleRow]) (fun _ => [sampleEntry])
        ⟨false, false, 0, 0, [sampleRow], [sampleEntry]⟩
      = Except.ok ⟨⟨false, false, 0, 0, [sampleRow], [sampleEntry]⟩, true, false, false, none⟩
    ∧ 300 - (0 : Nat) ≥ 300 :=
  ⟨rfl, by decide⟩

/-- C7 (amended): on every tick crypto is fetched unconditionally (its 60 s
cadence comes from the fixed tick period, not a timestamp check), and
equities/news are refetched iff strictly more than 300 s have elapsed since
their last update, or their snapshot is empty (the never-fetched proxy), or
the manual-refresh flag is set. -/
theorem refresh_due_iff (now : Nat) (df : List StockRow) (nf : Nat → List NewsEntry)
    (s : MainState) :
    ∃ r, mainTick now (.ok df) nf s = .ok r
      ∧ r.cryptoFetched = true
      ∧ (r.stockFetched = true ↔
          (300 < now - s.last_stock_update ∨ s.stock_df = [] ∨ s.manual_refresh_flag = true))
      ∧ (r.newsFetched = true ↔
          (300 < now - s.last_news_update ∨ s.news_list = [] ∨ s.manual_refresh_flag = true)) := by
  unfold mainTick
  dsimp only
  cases hsd : stock_due now { s with manual_refresh_flag := false } s.manual_refresh_flag
  case false =>
    cases hnd : news_due now { s with manual_refresh_flag := false } s.manual_refresh_flag
    case false =>
      simp only [hsd, hnd, Bool.false_eq_true, if_false]
      simp only [stock_due, news_due, Bool.or_eq_false_iff, decide_eq_false_iff_not,
        List.isEmpty_eq_false] at hsd hnd
      refine ⟨_, rfl, rfl, ?_, ?_⟩
      · simp [hsd.1.1, hsd.1.2, hsd.2]
      · simp [hnd.1.1, hnd.1.2, hnd.2]
    case true =>
      simp only [hsd, hnd, Bool.false_eq_true, if_false, if_true]
      simp only [stock_due, Bool.or_eq_false_iff, decide_eq_false_iff_not,
        List.isEmpty_eq_false] at hsd
      simp only [news_due, Bool.or_eq_true, decide_eq_true_eq, List.isEmpty_iff] at hnd
      refine ⟨_, rfl, rfl, ?_, ?_⟩
      · simp [hsd.1.1, hsd.1.2, hsd.2]
      · simpa [or_assoc] using hnd
  case true =>
    simp only [hsd, if_true]
    simp only [stock_due, Bool.or_eq_true, decide_eq_true_eq, List.isEmpty_iff] at hsd
    cases hnd : news_due now
        { s with manual_refresh_flag := false, stock_df := df, last_stock_update := now }
        s.manual_refresh_flag
    case false =>
      simp only [hnd, Bool.false_eq_true, if_false]
      simp only [news_due, Bool.or_eq_false_iff, decide_eq_false_iff_not,
        List.isEmpty_eq_false] at hnd
      refine ⟨_, rfl, rfl, ?_, ?_⟩
      · simpa [or_assoc] using hsd
      · simp [hnd.1.1, hnd.1.2, hnd.2]
    case true =>
      simp only [hnd, if_true]
      simp only [news_due, Bool.or_eq_true, decide_eq_true_eq, List.isEmpty_iff] at hnd
      refine ⟨_, rfl, rfl, ?_, ?_⟩
      · simpa [or_assoc] using hsd
      · simpa [or_assoc] using hnd

/-! ## Claim C9 -/

/-- C9 counterexample: a manual refresh at one tick expands the news fetch to
10 items, but the expansion flag is already cleared during that same tick's
idle wait — after a single tick (not 30) the state is unexpanded, and the
next due news fetch (six ticks later, well before any 30-tick horizon, with
no new manual trigger) uses 5 items again. -/
theorem expanded_news_reverts_next_fetch :
    mainTick 1060 (Except.ok [sampleRow]) (fun n => List.replicate n sampleEntry)
        ⟨true, true, 1000, 1000, [sampleRow], [sampleEntry]⟩
      = Except.ok ⟨⟨false, false, 1060, 1060, [sampleRow], List.replicate 10 sampleEntry⟩,
          true, true, true, some 10⟩
    ∧ mainTick 1420 (Except.ok [sampleRow]) (fun n => List.replicate n sampleEntry)
        ⟨false, false, 1060, 1060, [sampleRow], List.replicate 10 sampleEntry⟩
      = Except.ok ⟨⟨false, false, 1420, 1420, [sampleRow], List.replicate 5 sampleEntry⟩,
          true, true, true, some 5⟩ :=
  ⟨rfl, rfl⟩

/-- C9 (amended): a tick that consumes a manual refresh with the expansion
flag set fetches 10 news items, but clears the expansion flag during that
same tick's idle wait (30 s in, unless another manual refresh is already
pending); consequently any following due news fetch with no new manual
trigger uses 5 items — there is no 30-tick expiry. -/
theorem expansion_cleared_same_tick (now : Nat) (df : List StockRow)
    (nf : Nat → List NewsEntry) (s : MainState)
    (h1 : s.manual_refresh_flag = true) (h2 : s.show_more_news = true)
    (now2 : Nat) (df2 : List StockRow) (nf2 : Nat → List NewsEntry) :
    ∃ r r2, mainTick now (.ok df) nf s = .ok r
      ∧ r.newsCountUsed = some 10
      ∧ r.state.show_more_news = false
      ∧ mainTick now2 (.ok df2) nf2 r.state = .ok r2
      ∧ (r2.newsFetched = true → r2.newsCountUsed = some 5) := by
  have hfirst : ∃ r, mainTick now (.ok df) nf s = .ok r
      ∧ r.newsCountUsed = some 10
      ∧ r.state.show_more_news = false
      ∧ r.state.manual_refresh_flag = false := by
    unfold mainTick
    dsimp only
    rw [h1]
    simp only [stock_due, news_due, Bool.or_true, if_true]
    simp [h2]
  obtain ⟨r, hr, hcount, hshow0, hm0⟩ := hfirst
  obtain ⟨r2, hr2, _, _, _, hc2⟩ := mainTick_no_manual_flags now2 df2 nf2 r.state hm0
  refine ⟨r, r2, hr, hcount, hshow0, hr2, fun hf => ?_⟩
  have hc := hc2 hf
  rw [hshow0] at hc
  simpa using hc

/-- C9 witness: the amended theorem at a concrete expanded manual-refresh
state. -/
theorem expansion_cleared_same_tick_witness :
    ∃ r r2, mainTick 1060 (Except.ok [sampleRow]) (fun n => List.replicate n sampleEntry)
          ⟨true, true, 1000, 1000, [sampleRow], [sampleEntry]⟩ = .ok r
      ∧ r.newsCountUsed = some 10
      ∧ r.state.show_more_news = false
      ∧ mainTick 1420 (Except.ok [sampleRow]) (fun n => List.replicate n sampleEntry)
          r.state = .ok r2
      ∧ (r2.newsFetched = true → r2.newsCountUsed = some 5) :=
  expansion_cleared_same_tick 1060 [sampleRow] (fun n => List.replicate n sampleEntry)
    ⟨true, true, 1000, 1000, [sampleRow], [sampleEntry]⟩ rfl rfl
    1420 [sampleRow] (fun n => List.replicate n sampleEntry)
